import Mathlib

/-!
Shallow embedding of the authentication/session subsystem of the
infra-frontend repository:

* `AuthService` (src/app/core/services: login, register, logout,
  refreshToken, isAuthenticated, isTokenExpired, isTokenExpiringSoon,
  saveAuthData, clearAuthData),
* the HTTP request authorizer `authInterceptor`
  (src/app/core/interceptors/auth.interceptor.ts),
* the public route guard `publicAuthGuard`
  (src/app/core/guards/public-auth.guard.ts).

Durable storage (browser localStorage restricted to the three fixed keys
auth_token / refresh_token / user_data) is a record of three optional
strings.  The in-memory session state (the currentUserSubject) is an
optional user record.  Network calls are suspension points: every
operation that performs one takes the outcome of that call as an
explicit parameter, and the run of an operation returns the new state
together with its result and observable effects (network calls made,
router navigations).  JavaScript string truthiness (null and the empty
string are falsy) is modelled explicitly by `strTruthy`, because the
source guards several branches with bare `if (token)` checks.
-/

/-- A user record, identified by its JSON serialization
(`JSON.stringify(response.user)` is what the code persists). -/
structure User where
  json : String
deriving DecidableEq, Repr

/-- JSON.stringify applied to a user record. -/
def serializeUser (u : User) : String := u.json

/-- Durable storage: the three localStorage keys the auth code uses
(TOKEN_KEY = auth_token, REFRESH_TOKEN_KEY = refresh_token,
USER_KEY = user_data).  `none` models an absent key. -/
structure Storage where
  auth_token : Option String
  refresh_token : Option String
  user_data : Option String
deriving DecidableEq, Repr

/-- Combined state: durable storage plus the in-memory session state
(the value held by currentUserSubject). -/
structure AppState where
  storage : Storage
  currentUser : Option User
deriving DecidableEq, Repr

/-- JavaScript truthiness of a nullable string: null (absent) and the
empty string are falsy, every other string is truthy. -/
def strTruthy : Option String → Bool
  | none => false
  | some s => s ≠ ""

/-- The body of a successful auth endpoint response:
{ user, accessToken, refreshToken }.  The refreshToken field is
optional because saveAuthData guards it with a truthiness check. -/
structure AuthResponse where
  accessToken : String
  refreshToken : Option String
  user : User
deriving DecidableEq, Repr

/-- An HTTP error response, of which the auth code only inspects the
numeric status. -/
structure HttpError where
  status : Int
deriving DecidableEq, Repr

/-- An HTTP success response body (opaque to the interceptor). -/
structure Response where
  body : String
deriving DecidableEq, Repr

/-- AuthService.saveAuthData: setItem(TOKEN_KEY, accessToken);
if (response.refreshToken) setItem(REFRESH_TOKEN_KEY, refreshToken);
setItem(USER_KEY, JSON.stringify(user)). -/
def saveAuthData (st : Storage) (r : AuthResponse) : Storage :=
  let st1 : Storage := { st with auth_token := some r.accessToken }
  let st2 : Storage :=
    match r.refreshToken with
    | some rt => if rt = "" then st1 else { st1 with refresh_token := some rt }
    | none => st1
  { st2 with user_data := some (serializeUser r.user) }

/-- AuthService.clearAuthData: removeItem on all three keys. -/
def clearAuthData (st : Storage) : Storage :=
  { st with auth_token := none, refresh_token := none, user_data := none }

/-- AuthService.getUserFromStorage: userStr ? JSON.parse(userStr) : null. -/
def getUserFromStorage (st : Storage) : Option User :=
  match st.user_data with
  | some s => if s = "" then none else some ⟨s⟩
  | none => none

/-- AuthService.isAuthenticated: !!this.getToken(). -/
def isAuthenticated (st : Storage) : Bool :=
  strTruthy st.auth_token

/-- AuthService.isTokenExpired, parameterized by the claim decoder
(JSON.parse of atob of the second dot-separated token segment; `none`
models a decode failure, i.e. the catch branch).  Returns true when no
token is stored (the falsy check), true on decode failure, and
otherwise compares Date.now() with exp * 1000. -/
def isTokenExpired (decode : String → Option Int) (st : Storage) (now : Int) : Bool :=
  match st.auth_token with
  | none => true
  | some token =>
    if token = "" then true
    else
      match decode token with
      | none => true
      | some exp => decide (now ≥ exp * 1000)

/-- AuthService.isTokenExpiringSoon: returns false when no token is
stored, false on decode failure (the catch branch), and otherwise
tests Date.now() >= exp * 1000 - minutes * 60 * 1000. -/
def isTokenExpiringSoon (decode : String → Option Int) (st : Storage) (now : Int)
    (minutes : Int) : Bool :=
  match st.auth_token with
  | none => false
  | some token =>
    if token = "" then false
    else
      match decode token with
      | none => false
      | some exp => decide (now ≥ exp * 1000 - minutes * 60 * 1000)

/-- Errors an AuthService operation can produce: the locally raised
Error('No refresh token available'), or a propagated network error. -/
inductive AuthError where
  | noRefreshToken
  | network (e : HttpError)
deriving DecidableEq, Repr

/-- Result of running AuthService.logout: the cleared state and the
router.navigate target it issues. -/
structure LogoutResult where
  state : AppState
  navs : List String
deriving DecidableEq, Repr

/-- AuthService.logout: clearAuthData, currentUserSubject.next(null),
router.navigate(['/auth/login']). -/
def logout (s : AppState) : LogoutResult :=
  { state := { storage := clearAuthData s.storage, currentUser := none }
    navs := ["/auth/login"] }

/-- AuthService.login, run against a given network outcome for the POST
to /auth/login.  On success the tap saves auth data and publishes the
user; on error nothing local changes and the error propagates. -/
def login (s : AppState) (net : Except HttpError AuthResponse) :
    AppState × Except HttpError AuthResponse :=
  match net with
  | .ok resp =>
      ({ storage := saveAuthData s.storage resp, currentUser := some resp.user }, .ok resp)
  | .error e => (s, .error e)

/-- AuthService.register, run against a given network outcome for the
POST to /auth/register; identical session establishment to login. -/
def register (s : AppState) (net : Except HttpError AuthResponse) :
    AppState × Except HttpError AuthResponse :=
  match net with
  | .ok resp =>
      ({ storage := saveAuthData s.storage resp, currentUser := some resp.user }, .ok resp)
  | .error e => (s, .error e)

/-- Result of running AuthService.refreshToken: the state afterwards,
the observable outcome, and whether a network call was made. -/
structure RefreshOutcome where
  state : AppState
  result : Except AuthError AuthResponse
  networkCalled : Bool
deriving Repr

/-- AuthService.refreshToken, run against a given network outcome for
the POST to /auth/refresh.  If the stored refresh token is falsy the
operation fails fast with Error('No refresh token available') and no
network call happens.  Otherwise, on network success the tap saves auth
data and publishes the user; on network failure the catchError clears
auth data, publishes null and rethrows the error. -/
def refreshToken (s : AppState) (net : Except HttpError AuthResponse) : RefreshOutcome :=
  if strTruthy s.storage.refresh_token then
    match net with
    | .ok resp =>
        { state := { storage := saveAuthData s.storage resp, currentUser := some resp.user }
          result := .ok resp
          networkCalled := true }
    | .error e =>
        { state := { storage := clearAuthData s.storage, currentUser := none }
          result := .error (.network e)
          networkCalled := true }
  else
    { state := s, result := .error .noRefreshToken, networkCalled := false }

/-- Agreement between durable storage and in-memory session state: the
persisted user_data key is exactly the serialization of the published
current user (the user record is the only datum both sides hold). -/
def agrees (s : AppState) : Bool :=
  s.storage.user_data == s.currentUser.map serializeUser

/-- An outbound HTTP request as the interceptor sees it: a URL and an
optional Authorization header. -/
structure HttpRequest where
  url : String
  authHeader : Option String
deriving DecidableEq, Repr

/-- Whether the second character list occurs at the start of the first. -/
def charsStartWith : List Char → List Char → Bool
  | _, [] => true
  | [], _ :: _ => false
  | c :: cs, p :: ps => c == p && charsStartWith cs ps

/-- Whether the second character list occurs contiguously anywhere in
the first (the semantics of JavaScript String.prototype.includes). -/
def charsContain : List Char → List Char → Bool
  | [], pat => pat.isEmpty
  | c :: cs, pat => charsStartWith (c :: cs) pat || charsContain cs pat

/-- The string.includes check the interceptor applies to URLs. -/
def urlIncludes (url pat : String) : Bool :=
  charsContain url.data pat.data

/-- The interceptor's allow-list of endpoints that never get a token. -/
def publicEndpoints : List String :=
  ["/auth/login", "/auth/register", "/auth/refresh"]

/-- publicEndpoints.some(endpoint => req.url.includes(endpoint)). -/
def isPublicEndpoint (url : String) : Bool :=
  publicEndpoints.any (fun e => urlIncludes url e)

/-- The Authorization header value built from a token. -/
def bearer (t : String) : String := "Bearer " ++ t

/-- The token-decoration step of the interceptor: clone the request
with Authorization: Bearer token when a (truthy) token is stored,
otherwise forward the request unmodified. -/
def decorate (s : AppState) (req : HttpRequest) : HttpRequest :=
  match s.storage.auth_token with
  | some t => if t = "" then req else { req with authHeader := some (bearer t) }
  | none => req

/-- Errors surfaced by the intercepted request stream: an HTTP error
response, or the locally raised missing-refresh-token Error. -/
inductive InterceptError where
  | http (e : HttpError)
  | noRefreshToken
deriving DecidableEq, Repr

/-- How an AuthService error appears on the interceptor's error channel:
the refreshToken catchError rethrows the HTTP error it caught, and the
fail-fast branch throws its local Error. -/
def AuthError.toInterceptError : AuthError → InterceptError
  | .noRefreshToken => .noRefreshToken
  | .network e => .http e

/-- Observable network events of one interceptor run: a request
subscribed through the next handler, or the refresh POST issued via
AuthService.refreshToken. -/
inductive Event where
  | sent (r : HttpRequest)
  | refreshCall
deriving DecidableEq, Repr

/-- Everything observable about one run of the interceptor: the value
or error delivered to the caller, the ordered network events, the state
afterwards, and the router navigations issued. -/
structure InterceptOutcome where
  result : Except InterceptError Response
  trace : List Event
  state : AppState
  navs : List String
deriving Repr

/-- authInterceptor, run against a handler `next` that resolves each
forwarded request and a network outcome `refreshNet` for the refresh
POST should one be made.  Public endpoints pass through untouched.
Otherwise the request is decorated with the stored token; a 401 error
on a non-refresh URL with a truthy stored refresh token triggers
AuthService.refreshToken, and on refresh success the original request
is cloned with the new token and resubmitted once; any error of the
refresh-and-retry stream hits the inner catchError, which performs
logout and rethrows.  Every other error propagates unchanged. -/
def authInterceptor (s : AppState) (req : HttpRequest)
    (next : HttpRequest → Except HttpError Response)
    (refreshNet : Except HttpError AuthResponse) : InterceptOutcome :=
  if isPublicEndpoint req.url then
    { result := (next req).mapError .http, trace := [.sent req], state := s, navs := [] }
  else
    let clonedReq := decorate s req
    match next clonedReq with
    | .ok resp =>
        { result := .ok resp, trace := [.sent clonedReq], state := s, navs := [] }
    | .error err =>
        if decide (err.status = 401) && !(urlIncludes req.url "/auth/refresh")
            && strTruthy s.storage.refresh_token then
          let ro := refreshToken s refreshNet
          match ro.result with
          | .ok resp =>
              let retryReq : HttpRequest :=
                { req with authHeader := some (bearer resp.accessToken) }
              match next retryReq with
              | .ok r2 =>
                  { result := .ok r2
                    trace := [.sent clonedReq, .refreshCall, .sent retryReq]
                    state := ro.state, navs := [] }
              | .error e2 =>
                  let lr := logout ro.state
                  { result := .error (.http e2)
                    trace := [.sent clonedReq, .refreshCall, .sent retryReq]
                    state := lr.state, navs := lr.navs }
          | .error re =>
              let lr := logout ro.state
              { result := .error re.toInterceptError
                trace := [.sent clonedReq] ++ (if ro.networkCalled then [.refreshCall] else [])
                state := lr.state, navs := lr.navs }
        else
          { result := .error (.http err), trace := [.sent clonedReq], state := s, navs := [] }

/-- Everything observable about one run of a route guard: the activation
decision, the state afterwards, and the router navigations issued. -/
structure GuardOutcome where
  allow : Bool
  state : AppState
  navs : List String
deriving DecidableEq, Repr

/-- publicAuthGuard: if authenticated with an unexpired token, navigate
to /app/dashboard and deny activation; if authenticated with an expired
token, logout (which itself navigates to /auth/login) and allow; if not
authenticated, allow with no side effects. -/
def publicAuthGuard (decode : String → Option Int) (s : AppState) (now : Int) :
    GuardOutcome :=
  if isAuthenticated s.storage then
    if !(isTokenExpired decode s.storage now) then
      { allow := false, state := s, navs := ["/app/dashboard"] }
    else
      let lr := logout s
      { allow := true, state := lr.state, navs := lr.navs }
  else
    { allow := true, state := s, navs := [] }

/-- Helper: a URL outside the public allow-list in particular does not
contain the refresh endpoint substring, so the interceptor's in-branch
check !req.url.includes('/auth/refresh') is implied by non-exemption. -/
theorem not_public_not_refresh (url : String)
    (h : isPublicEndpoint url = false) : urlIncludes url "/auth/refresh" = false := by
  simp [isPublicEndpoint, publicEndpoints] at h
  exact h.2.2

/-- Claim C3 (counterexample): the spec states isTokenExpiringSoon(5) is
true iff 0 < exp*1000 - now <= 5*60*1000, hence false for an already
expired token; but on a stored token decoding to exp = 0 at now = 1000
the code returns true although 0 < exp*1000 - now fails. -/
theorem expiringSoon_claim_counterexample :
    isTokenExpiringSoon (fun s => if s = "tok" then some 0 else none)
      ⟨some "tok", none, none⟩ 1000 5 = true
    ∧ ¬(0 < (0 : Int) * 1000 - 1000 ∧ (0 : Int) * 1000 - 1000 ≤ 5 * 60 * 1000) := by
  constructor
  · decide
  · decide

/-- Claim C3 (amended): for a stored decodable token with expiry claim
exp, isTokenExpiringSoon(5) is true iff exp*1000 - now <= 5*60*1000;
the code imposes no positivity on the remaining margin, so an already
expired token also yields true. -/
theorem expiringSoon_iff_within_threshold (decode : String → Option Int) (st : Storage)
    (now : Int) (tok : String) (exp : Int)
    (h1 : st.auth_token = some tok) (h2 : tok ≠ "") (h3 : decode tok = some exp) :
    isTokenExpiringSoon decode st now 5 = true ↔ exp * 1000 - now ≤ 5 * 60 * 1000 := by
  simp [isTokenExpiringSoon, h1, h2, h3]
  omega

/-- Witness for the amended C3 theorem at a concrete input. -/
theorem expiringSoon_iff_witness :
    (Storage.mk (some "tok") none none).auth_token = some "tok"
    ∧ "tok" ≠ ""
    ∧ (fun s => if s = "tok" then some (7 : Int) else none) "tok" = some 7
    ∧ (isTokenExpiringSoon (fun s => if s = "tok" then some (7 : Int) else none)
        ⟨some "tok", none, none⟩ 6900 5 = true ↔ (7 : Int) * 1000 - 6900 ≤ 5 * 60 * 1000) :=
  ⟨rfl, by decide, by decide,
   expiringSoon_iff_within_threshold _ _ 6900 "tok" 7 rfl (by decide) (by decide)⟩

/-- Claim C4: when the stored access token is present but its payload
cannot be decoded, the boolean checks fail closed without throwing:
isTokenExpired treats it as expired (true) and isTokenExpiringSoon
treats it as invalid (false, so no proactive refresh is attempted on an
undecodable token); both catch the decode failure and return. -/
theorem malformed_token_fails_closed (decode : String → Option Int) (st : Storage)
    (now m : Int) (tok : String)
    (h1 : st.auth_token = some tok) (h2 : tok ≠ "") (h3 : decode tok = none) :
    isTokenExpired decode st now = true ∧ isTokenExpiringSoon decode st now m = false := by
  simp [isTokenExpired, isTokenExpiringSoon, h1, h2, h3]

/-- Witness for the C4 theorem at a concrete input. -/
theorem malformed_token_witness :
    (Storage.mk (some "garbage") none none).auth_token = some "garbage"
    ∧ "garbage" ≠ ""
    ∧ (fun _ : String => (none : Option Int)) "garbage" = none
    ∧ (isTokenExpired (fun _ => none) ⟨some "garbage", none, none⟩ 0 = true
       ∧ isTokenExpiringSoon (fun _ => none) ⟨some "garbage", none, none⟩ 0 5 = false) :=
  ⟨rfl, by decide, rfl,
   malformed_token_fails_closed (fun _ => none) _ 0 5 "garbage" rfl (by decide) rfl⟩

/-- Claim C5: with no stored refresh token, refreshToken fails fast with
the distinct local error, makes no network call and leaves the state
unchanged; that error is distinguishable from every network failure. -/
theorem refresh_without_token_fails_fast (s : AppState) (net : Except HttpError AuthResponse)
    (h : s.storage.refresh_token = none) :
    (refreshToken s net).result = .error .noRefreshToken
    ∧ (refreshToken s net).networkCalled = false
    ∧ (refreshToken s net).state = s
    ∧ ∀ e : HttpError, AuthError.noRefreshToken ≠ AuthError.network e := by
  refine ⟨?_, ?_, ?_, fun e => by simp⟩ <;> simp [refreshToken, strTruthy, h]

/-- Witness for the C5 theorem at a concrete input. -/
theorem refresh_without_token_witness :
    (AppState.mk ⟨some "T", none, some "u"⟩ (some ⟨"u"⟩)).storage.refresh_token = none
    ∧ (refreshToken ⟨⟨some "T", none, some "u"⟩, some ⟨"u"⟩⟩
        (.ok ⟨"T2", some "R2", ⟨"u2"⟩⟩)).result = .error .noRefreshToken
    ∧ (refreshToken ⟨⟨some "T", none, some "u"⟩, some ⟨"u"⟩⟩
        (.ok ⟨"T2", some "R2", ⟨"u2"⟩⟩)).networkCalled = false :=
  ⟨rfl,
   (refresh_without_token_fails_fast _ (.ok ⟨"T2", some "R2", ⟨"u2"⟩⟩) rfl).1,
   (refresh_without_token_fails_fast _ (.ok ⟨"T2", some "R2", ⟨"u2"⟩⟩) rfl).2.1⟩

/-- Claim C6: when the refresh network call fails, refreshToken clears
all three durable storage keys, publishes null to the session state and
propagates the network error. -/
theorem refresh_network_failure_clears_session (s : AppState) (e : HttpError)
    (h : strTruthy s.storage.refresh_token = true) :
    (refreshToken s (.error e)).state.storage.auth_token = none
    ∧ (refreshToken s (.error e)).state.storage.refresh_token = none
    ∧ (refreshToken s (.error e)).state.storage.user_data = none
    ∧ (refreshToken s (.error e)).state.currentUser = none
    ∧ (refreshToken s (.error e)).result = .error (.network e) := by
  simp [refreshToken, h, clearAuthData]

/-- Witness for the C6 theorem at a concrete input. -/
theorem refresh_failure_witness :
    strTruthy (AppState.mk ⟨some "T", some "R", some "u"⟩ (some ⟨"u"⟩)).storage.refresh_token = true
    ∧ (refreshToken ⟨⟨some "T", some "R", some "u"⟩, some ⟨"u"⟩⟩
        (.error ⟨500⟩)).state.storage.refresh_token = none
    ∧ (refreshToken ⟨⟨some "T", some "R", some "u"⟩, some ⟨"u"⟩⟩
        (.error ⟨500⟩)).result = .error (.network ⟨500⟩) :=
  ⟨by decide,
   (refresh_network_failure_clears_session ⟨⟨some "T", some "R", some "u"⟩, some ⟨"u"⟩⟩ ⟨500⟩ (by decide)).2.1,
   (refresh_network_failure_clears_session ⟨⟨some "T", some "R", some "u"⟩, some ⟨"u"⟩⟩ ⟨500⟩ (by decide)).2.2.2.2⟩

/-- Claim C7: on a successful refresh response carrying a (non-falsy)
refresh token, refreshToken stores the new access token, the new
refresh token and the serialized new user, and re-publishes the session
state with the new user record. -/
theorem refresh_success_replaces_tokens (s : AppState) (resp : AuthResponse) (rt : String)
    (h : strTruthy s.storage.refresh_token = true)
    (hrt : resp.refreshToken = some rt) (hne : rt ≠ "") :
    (refreshToken s (.ok resp)).state.storage.auth_token = some resp.accessToken
    ∧ (refreshToken s (.ok resp)).state.storage.refresh_token = some rt
    ∧ (refreshToken s (.ok resp)).state.storage.user_data = some (serializeUser resp.user)
    ∧ (refreshToken s (.ok resp)).state.currentUser = some resp.user := by
  simp [refreshToken, h, saveAuthData, hrt, hne]

/-- Witness for the C7 theorem at a concrete input. -/
theorem refresh_success_witness :
    strTruthy (AppState.mk ⟨some "T", some "R", some "u"⟩ (some ⟨"u"⟩)).storage.refresh_token = true
    ∧ (AuthResponse.mk "T2" (some "R2") ⟨"u2"⟩).refreshToken = some "R2"
    ∧ "R2" ≠ ""
    ∧ (refreshToken ⟨⟨some "T", some "R", some "u"⟩, some ⟨"u"⟩⟩
        (.ok ⟨"T2", some "R2", ⟨"u2"⟩⟩)).state.storage.auth_token = some "T2"
    ∧ (refreshToken ⟨⟨some "T", some "R", some "u"⟩, some ⟨"u"⟩⟩
        (.ok ⟨"T2", some "R2", ⟨"u2"⟩⟩)).state.storage.refresh_token = some "R2" :=
  ⟨by decide, rfl, by decide,
   (refresh_success_replaces_tokens _ ⟨"T2", some "R2", ⟨"u2"⟩⟩ "R2" (by decide) rfl (by decide)).1,
   (refresh_success_replaces_tokens _ ⟨"T2", some "R2", ⟨"u2"⟩⟩ "R2" (by decide) rfl (by decide)).2.1⟩

/-- Claim C8 (counterexample): the spec states isAuthenticated is true
iff the auth_token key is present regardless of the token's content,
but with the empty string stored under auth_token the key is present
while the JavaScript truthiness check makes isAuthenticated false. -/
theorem isAuthenticated_claim_counterexample :
    (Storage.mk (some "") none none).auth_token.isSome = true
    ∧ isAuthenticated ⟨some "", none, none⟩ = false := by
  constructor
  · rfl
  · decide

/-- Claim C8 (amended): isAuthenticated is true iff the auth_token key
is present with a non-empty value; expiry and any other aspect of the
content are still irrelevant. -/
theorem isAuthenticated_iff_nonempty_token (st : Storage) :
    isAuthenticated st = true ↔ ∃ t, st.auth_token = some t ∧ t ≠ "" := by
  cases h : st.auth_token with
  | none => simp [isAuthenticated, strTruthy, h]
  | some t => simp [isAuthenticated, strTruthy, h]

/-- Witness for the amended C8 theorem at a concrete input. -/
theorem isAuthenticated_iff_witness :
    isAuthenticated ⟨some "T1", none, none⟩ = true :=
  (isAuthenticated_iff_nonempty_token ⟨some "T1", none, none⟩).mpr
    ⟨"T1", rfl, by decide⟩

/-- Claim C2: after every successful auth operation (login, register,
logout, refresh) the persisted user_data key and the in-memory session
state agree — each operation writes both within the same operation, so
durable storage and session state do not diverge. -/
theorem auth_ops_storage_session_agree (s : AppState) (resp : AuthResponse) :
    agrees (login s (.ok resp)).1 = true
    ∧ agrees (register s (.ok resp)).1 = true
    ∧ agrees (logout s).state = true
    ∧ (strTruthy s.storage.refresh_token = true →
        agrees (refreshToken s (.ok resp)).state = true) := by
  refine ⟨?_, ?_, ?_, fun h => ?_⟩ <;>
    simp [agrees, login, register, logout, refreshToken, saveAuthData, clearAuthData,
      serializeUser, *]

/-- Witness for the C2 theorem at a concrete input. -/
theorem auth_ops_agree_witness :
    strTruthy (AppState.mk ⟨some "T", some "R", some "u"⟩ (some ⟨"u"⟩)).storage.refresh_token = true
    ∧ agrees (refreshToken ⟨⟨some "T", some "R", some "u"⟩, some ⟨"u"⟩⟩
        (.ok ⟨"T2", some "R2", ⟨"u2"⟩⟩)).state = true
    ∧ agrees (login ⟨⟨some "T", some "R", some "u"⟩, some ⟨"u"⟩⟩
        (.ok ⟨"T2", some "R2", ⟨"u2"⟩⟩)).1 = true :=
  ⟨by decide,
   (auth_ops_storage_session_agree _ _).2.2.2 (by decide),
   (auth_ops_storage_session_agree _ _).1⟩

/-- Claim C9: the public guard denies activation and redirects to the
dashboard when the user is authenticated with an unexpired token;
performs logout (clearing the session, with its navigation to the login
page) and allows activation when authenticated with an expired token;
and allows activation untouched when not authenticated. -/
theorem publicAuthGuard_branches (decode : String → Option Int) (s : AppState) (now : Int) :
    (isAuthenticated s.storage = true → isTokenExpired decode s.storage now = false →
        publicAuthGuard decode s now = ⟨false, s, ["/app/dashboard"]⟩)
    ∧ (isAuthenticated s.storage = true → isTokenExpired decode s.storage now = true →
        (publicAuthGuard decode s now).allow = true
        ∧ (publicAuthGuard decode s now).state = (logout s).state
        ∧ (publicAuthGuard decode s now).state.currentUser = none
        ∧ (publicAuthGuard decode s now).state.storage = clearAuthData s.storage
        ∧ (publicAuthGuard decode s now).navs = ["/auth/login"])
    ∧ (isAuthenticated s.storage = false →
        publicAuthGuard decode s now = ⟨true, s, []⟩) := by
  refine ⟨fun h1 h2 => ?_, fun h1 h2 => ?_, fun h1 => ?_⟩ <;>
    simp [publicAuthGuard, logout, clearAuthData, *]

/-- Witness for the C9 theorem: all three branches at concrete inputs. -/
theorem publicAuthGuard_witness :
    (publicAuthGuard (fun s => if s = "tok" then some (0 : Int) else none)
        ⟨⟨some "tok", none, none⟩, none⟩ (-1)
      = ⟨false, ⟨⟨some "tok", none, none⟩, none⟩, ["/app/dashboard"]⟩)
    ∧ ((publicAuthGuard (fun s => if s = "tok" then some (0 : Int) else none)
          ⟨⟨some "tok", none, none⟩, none⟩ 1000).allow = true
       ∧ (publicAuthGuard (fun s => if s = "tok" then some (0 : Int) else none)
          ⟨⟨some "tok", none, none⟩, none⟩ 1000).navs = ["/auth/login"])
    ∧ (publicAuthGuard (fun s => if s = "tok" then some (0 : Int) else none)
        ⟨⟨none, none, none⟩, none⟩ 0 = ⟨true, ⟨⟨none, none, none⟩, none⟩, []⟩) := by
  refine ⟨(publicAuthGuard_branches _ _ _).1 (by decide) (by decide),
    ⟨((publicAuthGuard_branches _ _ _).2.1 (by decide) (by decide)).1,
     ((publicAuthGuard_branches _ _ _).2.1 (by decide) (by decide)).2.2.2.2⟩,
    (publicAuthGuard_branches _ _ _).2.2 (by decide)⟩

/-- Claim C1: for a non-exempt request that fails with a 401 while a
truthy refresh token is stored and the refresh network call succeeds,
the interceptor performs exactly one refresh call and resubmits the
original request exactly once, carrying the refreshed access token (the
full network trace is the decorated original send, one refresh call,
and one retry send); and whatever error the retried request returns —
a second 401 included — is surfaced to the caller with no further
refresh attempt. -/
theorem interceptor_single_refresh_and_retry
    (s : AppState) (req : HttpRequest)
    (next : HttpRequest → Except HttpError Response)
    (resp : AuthResponse) (err : HttpError)
    (hpub : isPublicEndpoint req.url = false)
    (hrt : strTruthy s.storage.refresh_token = true)
    (hfirst : next (decorate s req) = .error err)
    (h401 : err.status = 401) :
    (authInterceptor s req next (.ok resp)).trace
      = [.sent (decorate s req), .refreshCall,
         .sent { req with authHeader := some (bearer resp.accessToken) }]
    ∧ (authInterceptor s req next (.ok resp)).trace.count .refreshCall = 1
    ∧ (∀ e2 : HttpError,
        next { req with authHeader := some (bearer resp.accessToken) } = .error e2 →
        (authInterceptor s req next (.ok resp)).result = .error (.http e2)) := by
  have hnr := not_public_not_refresh req.url hpub
  cases hretry : next { req with authHeader := some (bearer resp.accessToken) } with
  | ok r2 =>
      refine ⟨?_, ?_, ?_⟩ <;>
        simp [authInterceptor, hpub, hfirst, h401, hnr, hrt, refreshToken, hretry,
          List.count_cons]
  | error e2 =>
      refine ⟨?_, ?_, ?_⟩ <;>
        simp [authInterceptor, hpub, hfirst, h401, hnr, hrt, refreshToken, hretry,
          List.count_cons]

/-- Witness for the C1 theorem at a concrete input: first send 401s,
refresh succeeds, retried request succeeds with the new token. -/
theorem interceptor_single_refresh_witness :
    isPublicEndpoint "/api/devices" = false
    ∧ strTruthy (AppState.mk ⟨some "old", some "R1", some "u"⟩ (some ⟨"u"⟩)).storage.refresh_token = true
    ∧ (fun r : HttpRequest =>
        if r.authHeader == some (bearer "newTok") then Except.ok (⟨"ok"⟩ : Response)
        else Except.error (⟨401⟩ : HttpError))
        (decorate ⟨⟨some "old", some "R1", some "u"⟩, some ⟨"u"⟩⟩ ⟨"/api/devices", none⟩)
      = .error ⟨401⟩
    ∧ (authInterceptor ⟨⟨some "old", some "R1", some "u"⟩, some ⟨"u"⟩⟩ ⟨"/api/devices", none⟩
        (fun r => if r.authHeader == some (bearer "newTok") then Except.ok (⟨"ok"⟩ : Response)
                  else Except.error (⟨401⟩ : HttpError))
        (.ok ⟨"newTok", some "R2", ⟨"u2"⟩⟩)).trace
      = [.sent ⟨"/api/devices", some (bearer "old")⟩, .refreshCall,
         .sent ⟨"/api/devices", some (bearer "newTok")⟩]
    ∧ (authInterceptor ⟨⟨some "old", some "R1", some "u"⟩, some ⟨"u"⟩⟩ ⟨"/api/devices", none⟩
        (fun r => if r.authHeader == some (bearer "newTok") then Except.ok (⟨"ok"⟩ : Response)
                  else Except.error (⟨401⟩ : HttpError))
        (.ok ⟨"newTok", some "R2", ⟨"u2"⟩⟩)).trace.count .refreshCall = 1 :=
  ⟨by decide, by decide, rfl,
   (interceptor_single_refresh_and_retry _ _ _ _ ⟨401⟩ (by decide) (by decide) rfl rfl).1,
   (interceptor_single_refresh_and_retry _ _ _ _ ⟨401⟩ (by decide) (by decide) rfl rfl).2.1⟩

/-- Claim C10: when the refresh performed after a 401 succeeds but the
retried request fails with any error (a 500 included), that error flows
into the refresh-failure handler: the interceptor performs the full
session teardown — all three storage keys cleared, session state set to
null, navigation to the login page — and then propagates that error to
the caller. -/
theorem interceptor_retry_error_teardown
    (s : AppState) (req : HttpRequest)
    (next : HttpRequest → Except HttpError Response)
    (resp : AuthResponse) (err e2 : HttpError)
    (hpub : isPublicEndpoint req.url = false)
    (hrt : strTruthy s.storage.refresh_token = true)
    (hfirst : next (decorate s req) = .error err)
    (h401 : err.status = 401)
    (hretry : next { req with authHeader := some (bearer resp.accessToken) } = .error e2) :
    (authInterceptor s req next (.ok resp)).result = .error (.http e2)
    ∧ (authInterceptor s req next (.ok resp)).state.storage.auth_token = none
    ∧ (authInterceptor s req next (.ok resp)).state.storage.refresh_token = none
    ∧ (authInterceptor s req next (.ok resp)).state.storage.user_data = none
    ∧ (authInterceptor s req next (.ok resp)).state.currentUser = none
    ∧ (authInterceptor s req next (.ok resp)).navs = ["/auth/login"] := by
  have hnr := not_public_not_refresh req.url hpub
  simp [authInterceptor, hpub, hfirst, h401, hnr, hrt, refreshToken, hretry, logout,
    clearAuthData]

/-- Witness for the C10 theorem at a concrete input: first send 401s,
refresh succeeds, retried request fails with a 500. -/
theorem interceptor_teardown_witness :
    (fun r : HttpRequest =>
        if r.authHeader == some (bearer "newTok") then Except.error (⟨500⟩ : HttpError)
        else Except.error (⟨401⟩ : HttpError) : HttpRequest → Except HttpError Response)
        ⟨"/api/devices", some (bearer "newTok")⟩ = .error ⟨500⟩
    ∧ (authInterceptor ⟨⟨some "old", some "R1", some "u"⟩, some ⟨"u"⟩⟩ ⟨"/api/devices", none⟩
        (fun r => if r.authHeader == some (bearer "newTok") then Except.error (⟨500⟩ : HttpError)
                  else Except.error (⟨401⟩ : HttpError))
        (.ok ⟨"newTok", some "R2", ⟨"u2"⟩⟩)).result = .error (.http ⟨500⟩)
    ∧ (authInterceptor ⟨⟨some "old", some "R1", some "u"⟩, some ⟨"u"⟩⟩ ⟨"/api/devices", none⟩
        (fun r => if r.authHeader == some (bearer "newTok") then Except.error (⟨500⟩ : HttpError)
                  else Except.error (⟨401⟩ : HttpError))
        (.ok ⟨"newTok", some "R2", ⟨"u2"⟩⟩)).state.currentUser = none
    ∧ (authInterceptor ⟨⟨some "old", some "R1", some "u"⟩, some ⟨"u"⟩⟩ ⟨"/api/devices", none⟩
        (fun r => if r.authHeader == some (bearer "newTok") then Except.error (⟨500⟩ : HttpError)
                  else Except.error (⟨401⟩ : HttpError))
        (.ok ⟨"newTok", some "R2", ⟨"u2"⟩⟩)).navs = ["/auth/login"] :=
  ⟨rfl,
   (interceptor_retry_error_teardown _ _ _ _ ⟨401⟩ ⟨500⟩ (by decide) (by decide) rfl rfl rfl).1,
   (interceptor_retry_error_teardown _ _ _ _ ⟨401⟩ ⟨500⟩ (by decide) (by decide) rfl rfl rfl).2.2.2.2.1,
   (interceptor_retry_error_teardown _ _ _ _ ⟨401⟩ ⟨500⟩ (by decide) (by decide) rfl rfl rfl).2.2.2.2.2⟩
